import Mathlib

/-!
Shallow embedding of `src/OpticalResponseTest/Sled_Control/Sled_Control.ino`.

The sketch is a single polling loop: on each iteration with a byte
available it reads the byte, echoes it, and if the byte is the ASCII
character T (84) it runs one triggered cycle: a busy wait-loop that holds
buzzer and motor HIGH until `curMil - prevMil < 500 || sensorVal == HIGH`
fails (unsigned 32-bit arithmetic, `curMil` a global that is stale at the
first check, `sensorVal` initialised to HIGH), then a fixed sequence of
pin writes, delays and serial token prints for the Red, Green and Blue
LED channels.

The model is trace-based: each observable action of the sketch (serial
read, serial print, digitalWrite, analogWrite, delay, sensor poll)
becomes an event, and the loop body becomes a function from the
environment (the sensor readings at successive polls, the millis()
values at successive calls, the stale global `curMil`, and the number of
wait-loop iterations) to the list of events it performs.
-/

namespace SledControl

/-- Output and input pins of the sketch: LED ground, green, red, blue,
buzzer, motor (the IR sensor pin is modelled by `Ev.sensorRead`). -/
inductive Pin
  | lo
  | g
  | r
  | b
  | bzz
  | mtr
  deriving DecidableEq, Repr

/-- Observable events of the sketch. `serialRead` is `Serial.read()`,
`echo` is `Serial.println(char(inByte))`, `token` is a
`Serial.println("R")`-style print, `digitalWrite` uses `true` for HIGH
and `false` for LOW, `analogWrite` carries the PWM value, `delayMs` is
`delay(ms)`, and `sensorRead` is `digitalRead(IR_PIN)` with the value
returned. -/
inductive Ev
  | serialRead (b : Nat)
  | echo (b : Nat)
  | token (s : String)
  | digitalWrite (p : Pin) (v : Bool)
  | analogWrite (p : Pin) (v : Nat)
  | delayMs (ms : Nat)
  | sensorRead (v : Bool)
  deriving DecidableEq, Repr

/-- Modulus of the Arduino `unsigned long` type (32 bits). -/
def M32 : Nat := 4294967296

/-- Unsigned 32-bit subtraction `a - b`, as computed on `unsigned long`
operands in `curMil - prevMil < 500`. -/
def sub32 (a b : Nat) : Nat :=
  (a % M32 + (M32 - b % M32)) % M32

/-- Continuation condition of the wait-loop at line 47 of the sketch:
`curMil - prevMil < 500 || sensorVal == HIGH`. -/
def waitCond (cur prev : Nat) (sv : Bool) : Bool :=
  decide (sub32 cur prev < 500) || sv

/-- Value of the global `curMil` at the k-th evaluation of the wait-loop
condition, given the stale value `c0` it holds when the loop is entered
and the millis() call sequence `ms` of the cycle (`ms 0` is the value
assigned to `prevMil` at line 46; `ms (k+1)` is the value assigned to
`curMil` by the body's k-th iteration at line 51). -/
def waitCur (c0 : Nat) (ms : Nat → Nat) : Nat → Nat
  | 0 => c0
  | k + 1 => ms (k + 1)

/-- Value of `sensorVal` at the k-th evaluation of the wait-loop
condition: HIGH initially (line 43), then the reading of the sensor at
the body's k-th poll (line 50). -/
def waitSensor (sensor : Nat → Bool) : Nat → Bool
  | 0 => true
  | k + 1 => sensor k

/-- The k-th evaluation of the wait-loop condition of a triggered cycle:
`prevMil` holds `ms 0` throughout the loop. -/
def waitCheck (c0 : Nat) (ms : Nat → Nat) (sensor : Nat → Bool) (k : Nat) : Bool :=
  waitCond (waitCur c0 ms k) (ms 0) (waitSensor sensor k)

/-- The wait-loop of a triggered cycle exits at its n-th condition check:
all earlier checks kept it running and the n-th check fails (so the body
ran exactly n times). -/
def waitExitsAt (c0 : Nat) (ms : Nat → Nat) (sensor : Nat → Bool) (n : Nat) : Prop :=
  (∀ k, k < n → waitCheck c0 ms sensor k = true) ∧ waitCheck c0 ms sensor n = false

/-- Events of the k-th iteration of the wait-loop body (lines 48-51):
buzzer HIGH, motor HIGH, sensor poll (the millis() call updates state
but performs no observable output). -/
def waitIter (sensor : Nat → Bool) (k : Nat) : List Ev :=
  [Ev.digitalWrite Pin.bzz true, Ev.digitalWrite Pin.mtr true, Ev.sensorRead (sensor k)]

/-- Events of n iterations of the wait-loop body. -/
def waitTrace (sensor : Nat → Bool) : Nat → List Ev
  | 0 => []
  | n + 1 => waitTrace sensor n ++ waitIter sensor (n)

/-- Events of a triggered cycle after the wait-loop exits, a direct
transcription of lines 53-81 of the sketch. -/
def postLoopTrace : List Ev :=
  [Ev.digitalWrite Pin.bzz false,
   Ev.digitalWrite Pin.mtr false,
   Ev.delayMs 500,
   Ev.digitalWrite Pin.bzz true,
   Ev.analogWrite Pin.r 255,
   Ev.token "R",
   Ev.delayMs 100,
   Ev.digitalWrite Pin.bzz false,
   Ev.delayMs 500,
   Ev.analogWrite Pin.r 0,
   Ev.digitalWrite Pin.bzz true,
   Ev.analogWrite Pin.g 255,
   Ev.token "G",
   Ev.delayMs 100,
   Ev.digitalWrite Pin.bzz false,
   Ev.delayMs 500,
   Ev.analogWrite Pin.g 0,
   Ev.digitalWrite Pin.bzz true,
   Ev.analogWrite Pin.b 255,
   Ev.token "B",
   Ev.delayMs 100,
   Ev.digitalWrite Pin.bzz false,
   Ev.delayMs 500,
   Ev.analogWrite Pin.b 0]

/-- Events of one triggered cycle (the body of `if (char(inByte) == 'T')`,
lines 42-82) whose wait-loop body ran n times. -/
def cycleTrace (sensor : Nat → Bool) (n : Nat) : List Ev :=
  waitTrace sensor n ++ postLoopTrace

/-- ASCII code of the trigger character T. -/
def triggerByte : Nat := 84

/-- Events of one `loop()` invocation with a byte `c` available on the
serial port (lines 38-83): read, echo, and, when the byte is T, one
triggered cycle whose wait-loop body ran n times. -/
def loopIterTrace (c : Nat) (sensor : Nat → Bool) (n : Nat) : List Ev :=
  [Ev.serialRead c, Ev.echo c] ++ (if c = triggerByte then cycleTrace sensor n else [])

/-- Events of consecutive `loop()` invocations processing a list of
available input bytes, each paired with the sensor-reading sequence and
the wait-loop iteration count of the cycle it would trigger. -/
def processInputs : List (Nat × (Nat → Bool) × Nat) → List Ev
  | [] => []
  | x :: rest => loopIterTrace x.1 x.2.1 x.2.2 ++ processInputs rest

/-- Predicate for serial output events (lines printed over the serial
link): echoes and tokens. -/
def isSerialOut : Ev → Bool
  | Ev.echo _ => true
  | Ev.token _ => true
  | _ => false

/-- Predicate for token prints. -/
def isToken : Ev → Bool
  | Ev.token _ => true
  | _ => false

/-- Predicate for echo prints. -/
def isEcho : Ev → Bool
  | Ev.echo _ => true
  | _ => false

/-- Predicate for serial read events. -/
def isSerialIn : Ev → Bool
  | Ev.serialRead _ => true
  | _ => false

/-- Predicate for output-channel drives (digital or analog writes). -/
def isDrive : Ev → Bool
  | Ev.digitalWrite _ _ => true
  | Ev.analogWrite _ _ => true
  | _ => false

/-- Predicate for writes to the motor channel. -/
def isMtrWrite : Ev → Bool
  | Ev.digitalWrite Pin.mtr _ => true
  | _ => false

/-- PWM value written to pin p by an analog-write event, if it is one. -/
def analogValTo (p : Pin) : Ev → Option Nat
  | Ev.analogWrite q v => if q = p then some v else none
  | _ => none

/-- Last PWM value written to pin p in a trace, if any. -/
def lastAnalog (p : Pin) (l : List Ev) : Option Nat :=
  (l.filterMap (analogValTo p)).getLast?

/-- Checks that every token print in a trace is immediately followed by
`delay(100)`, then `digitalWrite(BZZ_PIN, LOW)`, then `delay(500)`. -/
def tokenHoldOk : List Ev → Bool
  | Ev.token _ :: rest =>
    (match rest with
     | Ev.delayMs 100 :: Ev.digitalWrite Pin.bzz false :: Ev.delayMs 500 :: _ => true
     | _ => false) && tokenHoldOk rest
  | _ :: rest => tokenHoldOk rest
  | [] => true

/-- Checks that every token print in a trace is immediately preceded by
the full-scale analog write of the matching LED channel: R after
`analogWrite(R_PIN, 255)`, G after the green write, B after the blue
write, with no event in between. -/
def tokenAfterLedOk : List Ev → Bool
  | Ev.analogWrite p 255 :: Ev.token s :: rest =>
    ((p == Pin.r && s == "R") || (p == Pin.g && s == "G") || (p == Pin.b && s == "B"))
      && tokenAfterLedOk rest
  | Ev.token _ :: _ => false
  | _ :: rest => tokenAfterLedOk rest
  | [] => true

/-! Helper lemmas. -/

/-- Filtering the wait-loop trace by any predicate that rejects buzzer
writes, motor writes and sensor polls yields nothing. -/
theorem waitTrace_filter_empty (p : Ev → Bool)
    (hb : ∀ v, p (Ev.digitalWrite Pin.bzz v) = false)
    (hm : ∀ v, p (Ev.digitalWrite Pin.mtr v) = false)
    (hs : ∀ v, p (Ev.sensorRead v) = false)
    (sensor : Nat → Bool) : ∀ n, (waitTrace sensor n).filter p = []
  | 0 => rfl
  | n + 1 => by
    simp only [waitTrace, List.filter_append, waitTrace_filter_empty p hb hm hs sensor n,
      waitIter, List.filter, hb, hm, hs, List.nil_append]

/-- The wait-loop trace contributes no analog writes. -/
theorem waitTrace_filterMap_analog (p : Pin) (sensor : Nat → Bool) :
    ∀ n, (waitTrace sensor n).filterMap (analogValTo p) = []
  | 0 => rfl
  | n + 1 => by
    simp only [waitTrace, List.filterMap_append, waitTrace_filterMap_analog p sensor n,
      waitIter, List.filterMap, analogValTo, List.nil_append]

/-- Prepending the wait-loop trace does not affect `tokenHoldOk`: its
events are neither tokens nor part of a token's required suffix check. -/
theorem tokenHoldOk_waitTrace (sensor : Nat → Bool) :
    ∀ n (l : List Ev), tokenHoldOk (waitTrace sensor n ++ l) = tokenHoldOk l
  | 0, l => rfl
  | n + 1, l => by
    rw [waitTrace, List.append_assoc]
    rw [tokenHoldOk_waitTrace sensor n (waitIter sensor n ++ l)]
    simp [waitIter, tokenHoldOk]

/-- Prepending the wait-loop trace does not affect `tokenAfterLedOk`. -/
theorem tokenAfterLedOk_waitTrace (sensor : Nat → Bool) :
    ∀ n (l : List Ev), tokenAfterLedOk (waitTrace sensor n ++ l) = tokenAfterLedOk l
  | 0, l => rfl
  | n + 1, l => by
    rw [waitTrace, List.append_assoc]
    rw [tokenAfterLedOk_waitTrace sensor n (waitIter sensor n ++ l)]
    simp [waitIter, tokenAfterLedOk]

/-- A concrete environment in which the wait-loop exits after one body
iteration: stale `curMil` 0, millis() returning 0 then 500, sensor LOW. -/
theorem exitEnvExits :
    waitExitsAt 0 (fun k => 500 * k) (fun _ => false) 1 := by
  constructor
  · intro k hk
    interval_cases k
    decide
  · decide

/-! Claim theorems. -/

/-- C4: the actuation wait-loop never exits at a check where the most
recently polled sensor value is HIGH, regardless of elapsed time:
a condition check fails (the loop exits there) exactly when at least
500 ms have elapsed as measured by `curMil - prevMil` AND the last
polled sensor reading is LOW. -/
theorem wait_exit_iff_time_and_low (c0 : Nat) (ms : Nat → Nat) (sensor : Nat → Bool)
    (n : Nat) :
    waitCheck c0 ms sensor n = false ↔
      (500 ≤ sub32 (waitCur c0 ms n) (ms 0) ∧ waitSensor sensor n = false) := by
  simp [waitCheck, waitCond, not_lt]

/-- C2: whenever the wait-loop of a triggered cycle exits at its n-th
condition check, the body has run at least once (the stale global
`curMil` cannot cause an exit at the first check, since `sensorVal` is
initialised HIGH) and at least 500 ms have elapsed as measured by
millis(): the freshly read `curMil` (`ms n`) minus `prevMil` (`ms 0`),
in unsigned 32-bit arithmetic, is at least 500. -/
theorem wait_exit_time_lower_bound (c0 : Nat) (ms : Nat → Nat) (sensor : Nat → Bool)
    (n : Nat) (h : waitExitsAt c0 ms sensor n) :
    1 ≤ n ∧ 500 ≤ sub32 (ms n) (ms 0) := by
  obtain ⟨-, hn⟩ := h
  cases n with
  | zero => simp [waitCheck, waitCond, waitSensor] at hn
  | succ k =>
    refine ⟨Nat.succ_le_succ (Nat.zero_le k), ?_⟩
    simp only [waitCheck, waitCond, waitCur, waitSensor, Bool.or_eq_false_iff,
      decide_eq_false_iff_not, not_lt] at hn
    exact hn.1

/-- Witness for C2 at a concrete environment. -/
theorem wait_exit_time_lower_bound_w :
    waitExitsAt 0 (fun k => 500 * k) (fun _ => false) 1 ∧
      (1 ≤ 1 ∧ 500 ≤ sub32 ((fun k => 500 * k) 1) ((fun k => 500 * k) 0)) :=
  ⟨exitEnvExits, wait_exit_time_lower_bound 0 (fun k => 500 * k) (fun _ => false) 1 exitEnvExits⟩

/-- C6: if the sensor reads HIGH at every poll, the wait-loop of a
triggered cycle never terminates: every condition check keeps the loop
running, and the trace of any number of body iterations contains no
color token. -/
theorem sensor_high_never_exits (c0 : Nat) (ms : Nat → Nat) (sensor : Nat → Bool)
    (hs : ∀ k, sensor k = true) (n : Nat) :
    waitCheck c0 ms sensor n = true ∧ (waitTrace sensor n).filter isToken = [] := by
  constructor
  · cases n with
    | zero => simp [waitCheck, waitCond, waitSensor]
    | succ k => simp [waitCheck, waitCond, waitSensor, hs k]
  · exact waitTrace_filter_empty isToken (fun _ => rfl) (fun _ => rfl) (fun _ => rfl) sensor n

/-- Witness for C6: sensor stuck HIGH, checked after five iterations. -/
theorem sensor_high_never_exits_w :
    (∀ k : Nat, (fun _ : Nat => true) k = true) ∧
      (waitCheck 0 (fun _ => 0) (fun _ => true) 5 = true ∧
        (waitTrace (fun _ => true) 5).filter isToken = []) :=
  ⟨fun _ => rfl, sensor_high_never_exits 0 (fun _ => 0) (fun _ => true) (fun _ => rfl) 5⟩

/-- C10: after the wait-loop of a triggered cycle exits, the remainder
of the cycle (`postLoopTrace`, which is exactly what follows the
wait-loop in `cycleTrace`) writes the motor channel exactly once, and
that write drives it LOW. -/
theorem motor_low_once_after_wait (sensor : Nat → Bool) (n : Nat) :
    cycleTrace sensor n = waitTrace sensor n ++ postLoopTrace ∧
      postLoopTrace.filter isMtrWrite = [Ev.digitalWrite Pin.mtr false] :=
  ⟨rfl, rfl⟩

/-- C9: a triggered cycle performs no serial read: every event between
trigger acceptance and cycle completion is something other than a
`Serial.read()`. -/
theorem no_serial_poll_during_cycle (sensor : Nat → Bool) (n : Nat) :
    (cycleTrace sensor n).filter isSerialIn = [] := by
  simp only [cycleTrace, List.filter_append,
    waitTrace_filter_empty isSerialIn (fun _ => rfl) (fun _ => rfl) (fun _ => rfl) sensor n,
    List.nil_append]
  rfl

/-- C3, counterexample: the claim that the Blue LED channel is never
driven to zero during a triggered cycle is false: the cycle trace
contains the write `analogWrite(B_PIN, 0)`, and it is the cycle's final
event. -/
theorem blue_zeroed_cex :
    Ev.analogWrite Pin.b 0 ∈ cycleTrace (fun _ => false) 1 ∧
      (cycleTrace (fun _ => false) 1).getLast? = some (Ev.analogWrite Pin.b 0) := by
  constructor
  · decide
  · decide

/-- C3, amended: at the end of every triggered cycle all three LED
channels — Red, Green AND Blue — are driven to zero: the last PWM value
written to each of the three pins during the cycle is 0. -/
theorem leds_all_zero_at_cycle_end (sensor : Nat → Bool) (n : Nat) :
    lastAnalog Pin.r (cycleTrace sensor n) = some 0 ∧
      lastAnalog Pin.g (cycleTrace sensor n) = some 0 ∧
      lastAnalog Pin.b (cycleTrace sensor n) = some 0 := by
  refine ⟨?_, ?_, ?_⟩ <;>
    simp only [lastAnalog, cycleTrace, List.filterMap_append,
      waitTrace_filterMap_analog, List.nil_append] <;> rfl

/-- C1: in a triggered cycle whose wait-loop terminates (after n body
iterations), the serial output of the `loop()` invocation is exactly the
echo of the triggering byte T followed by the three tokens R, G, B in
that order, and nothing else. -/
theorem triggered_cycle_serial_tokens (c0 : Nat) (ms : Nat → Nat) (sensor : Nat → Bool)
    (n : Nat) (_h : waitExitsAt c0 ms sensor n) :
    (loopIterTrace triggerByte sensor n).filter isSerialOut =
      [Ev.echo triggerByte, Ev.token "R", Ev.token "G", Ev.token "B"] := by
  show (Ev.serialRead triggerByte :: Ev.echo triggerByte :: cycleTrace sensor n).filter
      isSerialOut = _
  rw [show ∀ l : List Ev, (Ev.serialRead triggerByte :: Ev.echo triggerByte :: l).filter
      isSerialOut = Ev.echo triggerByte :: l.filter isSerialOut from fun l => rfl]
  rw [cycleTrace, List.filter_append,
    waitTrace_filter_empty isSerialOut (fun _ => rfl) (fun _ => rfl) (fun _ => rfl) sensor n]
  rfl

/-- Witness for C1 at a concrete environment in which the wait-loop
terminates after one iteration. -/
theorem triggered_cycle_serial_tokens_w :
    waitExitsAt 0 (fun k => 500 * k) (fun _ => false) 1 ∧
      (loopIterTrace triggerByte (fun _ => false) 1).filter isSerialOut =
        [Ev.echo triggerByte, Ev.token "R", Ev.token "G", Ev.token "B"] :=
  ⟨exitEnvExits,
   triggered_cycle_serial_tokens 0 (fun k => 500 * k) (fun _ => false) 1 exitEnvExits⟩

/-- C5: processing any input byte sequence that contains no T byte
echoes every byte, emits no color token, and drives no output channel
(no digital or analog write at all, hence neither buzzer, motor nor any
LED channel). -/
theorem no_trigger_echo_only (inputs : List (Nat × (Nat → Bool) × Nat))
    (h : ∀ x ∈ inputs, x.1 ≠ triggerByte) :
    (processInputs inputs).filter isEcho = inputs.map (fun x => Ev.echo x.1) ∧
      (processInputs inputs).filter isToken = [] ∧
      (processInputs inputs).filter isDrive = [] := by
  induction inputs with
  | nil => exact ⟨rfl, rfl, rfl⟩
  | cons x rest ih =>
    have hx : x.1 ≠ triggerByte := h x (List.mem_cons_self x rest)
    obtain ⟨h1, h2, h3⟩ := ih (fun y hy => h y (List.mem_cons_of_mem x hy))
    refine ⟨?_, ?_, ?_⟩ <;>
      simp [processInputs, loopIterTrace, if_neg hx, isEcho, isToken, isDrive, h1, h2, h3]

/-- Witness for C5 on the concrete trigger-free input sequence [65, 88]. -/
theorem no_trigger_echo_only_w :
    (∀ x ∈ ([(65, fun _ => false, 0), (88, fun _ => false, 0)] :
        List (Nat × (Nat → Bool) × Nat)), x.1 ≠ triggerByte) ∧
      ((processInputs [(65, fun _ => false, 0), (88, fun _ => false, 0)]).filter isEcho =
          [(65, (fun _ : Nat => false), 0), (88, (fun _ : Nat => false), 0)].map
            (fun x => Ev.echo x.1) ∧
        (processInputs [(65, fun _ => false, 0), (88, fun _ => false, 0)]).filter isToken = [] ∧
        (processInputs [(65, fun _ => false, 0), (88, fun _ => false, 0)]).filter isDrive = []) :=
  ⟨by decide, no_trigger_echo_only [(65, fun _ => false, 0), (88, fun _ => false, 0)] (by decide)⟩

/-- C7: within every triggered cycle, every token print is immediately
followed by a 100 ms hold, then the buzzer driven LOW, then a 500 ms
hold before the next stage begins; this covers the Red-to-Green and
Green-to-Blue transitions (and the final Blue stage as well). -/
theorem token_hold_timing (sensor : Nat → Bool) (n : Nat) :
    tokenHoldOk (cycleTrace sensor n) = true := by
  rw [cycleTrace, tokenHoldOk_waitTrace]
  rfl

/-- C8: within every triggered cycle, each of the three tokens R, G, B
is printed immediately after the matching LED channel is driven to full
output (255), with no other event in between. -/
theorem token_follows_led_drive (sensor : Nat → Bool) (n : Nat) :
    tokenAfterLedOk (cycleTrace sensor n) = true := by
  rw [cycleTrace, tokenAfterLedOk_waitTrace]
  rfl

end SledControl
